import Mathlib

/-!
Shallow embedding of the invoice draft engine of `src/frontend/src/App.js`
(the `App` component of the TSTINVO repository).

JavaScript numbers are modelled as rationals (`ℚ`); the claims under study
concern the algebraic structure of the arithmetic, not floating-point
rounding.  Strings are Lean `String`s.  A JavaScript object field that may
be missing is an `Option`.  A JavaScript call that throws is modelled as
returning `none`.
-/

namespace TSTINVO

/-- A line item of the draft (`App.js` line 28 shape):
`description`, `quantity`, `rate` and the derived `amount`. -/
structure LineItem where
  description : String
  quantity : ℚ
  rate : ℚ
  amount : ℚ
deriving DecidableEq, Repr

/-- The customer record built by `handleCustomerChange` (`App.js` 170-178).
Each field may be missing, because the JavaScript object is grown one
field at a time by spreading. -/
structure Customer where
  name : Option String
  mobile : Option String
  address : Option String
deriving DecidableEq, Repr

/-- The `payment_type` field: the source uses the strings `Cash` and
`Credit` only. -/
inductive PaymentType where
  | Cash
  | Credit
deriving DecidableEq, Repr

/-- The invoice form state (`App.js` 25-37).  `customer = none` models the
JavaScript `null`. -/
@[ext]
structure Invoice where
  payment_type : PaymentType
  customer : Option Customer
  items : List LineItem
  subtotal : ℚ
  discount : ℚ
  gst_rate : ℚ
  gst_amount : ℚ
  total : ℚ
  notes : String
  terms : String
  due_date : Option String
deriving DecidableEq, Repr

/-- The blank line item (description empty, quantity 1, rate 0, amount 0)
used both in the initial state and by `addItem`. -/
def blankItem : LineItem :=
  { description := "", quantity := 1, rate := 0, amount := 0 }

/-- The initial invoice form state (`App.js` 25-37). -/
def initialInvoice : Invoice :=
  { payment_type := PaymentType.Cash
    customer := none
    items := [blankItem]
    subtotal := 0
    discount := 0
    gst_rate := 0
    gst_amount := 0
    total := 0
    notes := ""
    terms := ""
    due_date := none }

/-- JavaScript `x || 0` on a number: every falsy number (`0`, `-0`, `NaN`)
becomes `0`; over `ℚ` the only falsy value is `0` itself, so the function
is the identity (proved below as `jsOr0_eq`). -/
def jsOr0 (x : ℚ) : ℚ :=
  if x = 0 then 0 else x

/-- `calculateItemAmount` (`App.js` 82-84). -/
def calculateItemAmount (quantity rate : ℚ) : ℚ :=
  quantity * rate

/-- Sum of the `amount` fields, exactly the
`items.reduce((sum, item) => sum + item.amount, 0)` of `calculateTotals`. -/
def sumAmounts (items : List LineItem) : ℚ :=
  items.foldl (fun sum item => sum + item.amount) 0

/-- Result record of `calculateTotals`. -/
structure Totals where
  subtotal : ℚ
  gstAmount : ℚ
  total : ℚ
deriving DecidableEq, Repr

/-- `calculateTotals` (`App.js` 86-94). -/
def calculateTotals (items : List LineItem) (discount gstRate : ℚ) : Totals :=
  let subtotal := sumAmounts items
  let discountAmount := jsOr0 discount
  let afterDiscount := subtotal - discountAmount
  let gstAmount := (afterDiscount * jsOr0 gstRate) / 100
  let total := afterDiscount + gstAmount
  { subtotal := subtotal, gstAmount := gstAmount, total := total }

/-- The `field`/`value` pair passed to `handleItemChange`: the UI passes a
string for `description` and a number (already coerced by
`parseFloat(...) || 0` at the call site) for `quantity` and `rate`. -/
inductive ItemField where
  | description (v : String)
  | quantity (v : ℚ)
  | rate (v : ℚ)
deriving DecidableEq, Repr

/-- The assignment `newItems[index][field] = value` on one item. -/
def applyItemField (item : LineItem) : ItemField → LineItem
  | ItemField.description v => { item with description := v }
  | ItemField.quantity v => { item with quantity := v }
  | ItemField.rate v => { item with rate := v }

/-- `handleItemChange` (`App.js` 96-113).  The index comes from the caller
unchecked; when it is out of range, `newItems[index]` is `undefined` and
the assignment `newItems[index][field] = value` throws a `TypeError`
before any state update, which we model as `none` (the draft is then left
unchanged by the aborted handler). -/
def handleItemChange (inv : Invoice) (index : ℤ) (field : ItemField) : Option Invoice :=
  if 0 ≤ index ∧ index < (inv.items.length : ℤ) then
    let i : ℕ := index.toNat
    let item0 := inv.items.getD i blankItem
    let item1 := applyItemField item0 field
    let item2 :=
      match field with
      | ItemField.description _ => item1
      | ItemField.quantity _ =>
          { item1 with amount := calculateItemAmount item1.quantity item1.rate }
      | ItemField.rate _ =>
          { item1 with amount := calculateItemAmount item1.quantity item1.rate }
    let newItems := inv.items.set i item2
    let totals := calculateTotals newItems inv.discount inv.gst_rate
    some { inv with
            items := newItems
            subtotal := totals.subtotal
            gst_amount := totals.gstAmount
            total := totals.total }
  else none

/-- Decimal digits to a natural number, most significant first. -/
def digitsToNat (cs : List Char) : ℕ :=
  cs.foldl (fun a c => 10 * a + (c.toNat - 48)) 0

/-- The digit-level reading of a numeric literal: sign, integer part, and
fractional part with its digit count. -/
structure ParsedNum where
  neg : Bool
  intVal : ℕ
  fracVal : ℕ
  fracLen : ℕ
deriving DecidableEq, Repr

/-- Digit-level phase of the modelled JavaScript `parseFloat`: skip
leading whitespace, read an optional sign, then the longest prefix of the
form `digits`, `digits.digits` or `.digits`; `none` models the `NaN`
returned when no digit is found.  (The exponent and `Infinity` forms of
the builtin are not needed by any claim and are omitted.) -/
def jsParseFloatRaw (s : String) : Option ParsedNum :=
  let cs := s.data.dropWhile Char.isWhitespace
  let signed : Bool × List Char :=
    match cs with
    | '-' :: rest => (true, rest)
    | '+' :: rest => (false, rest)
    | _ => (false, cs)
  let intPart := signed.2.takeWhile Char.isDigit
  let afterInt := signed.2.dropWhile Char.isDigit
  let fracPart :=
    match afterInt with
    | '.' :: r => r.takeWhile Char.isDigit
    | _ => []
  if intPart.isEmpty ∧ fracPart.isEmpty then none
  else
    some
      { neg := signed.1
        intVal := digitsToNat intPart
        fracVal := digitsToNat fracPart
        fracLen := fracPart.length }

/-- Numeric value of a digit-level reading. -/
def ratOfParsed (p : ParsedNum) : ℚ :=
  (if p.neg then -1 else 1) * ((p.intVal : ℚ) + (p.fracVal : ℚ) / (10 : ℚ) ^ p.fracLen)

/-- Modelled JavaScript `parseFloat` (see `jsParseFloatRaw`). -/
def jsParseFloat (s : String) : Option ℚ :=
  (jsParseFloatRaw s).map ratOfParsed

/-- JavaScript `parseFloat(value) || 0`: `NaN` (and a parsed `0` or `-0`)
collapses to `0`. -/
def jsToNumOr0 (value : String) : ℚ :=
  match jsParseFloat value with
  | none => 0
  | some x => jsOr0 x

/-- `handleDiscountChange` (`App.js` 115-126). -/
def handleDiscountChange (inv : Invoice) (value : String) : Invoice :=
  let discount := jsToNumOr0 value
  let totals := calculateTotals inv.items discount inv.gst_rate
  { inv with
      discount := discount
      subtotal := totals.subtotal
      gst_amount := totals.gstAmount
      total := totals.total }

/-- `handleGSTChange` (`App.js` 128-138); note it does not write `subtotal`. -/
def handleGSTChange (inv : Invoice) (value : String) : Invoice :=
  let gstRate := jsToNumOr0 value
  let totals := calculateTotals inv.items inv.discount gstRate
  { inv with
      gst_rate := gstRate
      gst_amount := totals.gstAmount
      total := totals.total }

/-- `addItem` (`App.js` 140-145): appends a blank row, touches no totals. -/
def addItem (inv : Invoice) : Invoice :=
  { inv with items := inv.items ++ [blankItem] }

/-- JavaScript `Array.prototype.filter` with the index argument, for
predicates (such as the one in `removeItem`) that ignore the element:
`filterIdx p l k` keeps the elements of `l` whose position, counted from
`k`, satisfies `p`. -/
def filterIdx {α : Type} (p : ℕ → Bool) : List α → ℕ → List α
  | [], _ => []
  | a :: as, k => if p k then a :: filterIdx p as (k + 1) else filterIdx p as (k + 1)

/-- `removeItem` (`App.js` 147-160): a no-op unless `items.length > 1`;
otherwise filters out position `index` and recomputes the totals. -/
def removeItem (inv : Invoice) (index : ℤ) : Invoice :=
  if 1 < inv.items.length then
    let newItems := filterIdx (fun i => (i : ℤ) != index) inv.items 0
    let totals := calculateTotals newItems inv.discount inv.gst_rate
    { inv with
        items := newItems
        subtotal := totals.subtotal
        gst_amount := totals.gstAmount
        total := totals.total }
  else inv

/-- `handlePaymentTypeChange` (`App.js` 162-168). -/
def handlePaymentTypeChange (inv : Invoice) (t : PaymentType) : Invoice :=
  { inv with
      payment_type := t
      customer := if t = PaymentType.Cash then none else inv.customer }

/-- The customer field being written by `handleCustomerChange`. -/
inductive CustomerField where
  | name (v : String)
  | mobile (v : String)
  | address (v : String)
deriving DecidableEq, Repr

/-- The empty object produced by spreading a `null` customer. -/
def emptyCustomer : Customer :=
  { name := none, mobile := none, address := none }

/-- One field update on a customer record. -/
def setCustomerField (c : Customer) : CustomerField → Customer
  | CustomerField.name v => { c with name := some v }
  | CustomerField.mobile v => { c with mobile := some v }
  | CustomerField.address v => { c with address := some v }

/-- `handleCustomerChange` (`App.js` 170-178): spreads the previous
customer (an empty object when it was `null`) and writes one field;
note that it does not consult `payment_type`. -/
def handleCustomerChange (inv : Invoice) (field : CustomerField) : Invoice :=
  { inv with
      customer := some (setCustomerField (inv.customer.getD emptyCustomer) field) }

/-- Modelled JavaScript `String.prototype.trim`: drop leading and
trailing whitespace. -/
def jsTrim (s : String) : String :=
  ⟨((s.data.dropWhile Char.isWhitespace).reverse.dropWhile Char.isWhitespace).reverse⟩

/-- The two validation conditions checked in `createInvoice`
(`App.js` 184-193). -/
inductive ValidationError where
  | missingLineItemDescription
  | missingCustomerName
deriving DecidableEq, Repr

/-- `invoice.items.some(item => item.description.trim())` (`App.js` 185):
some item has a non-blank, whitespace-trimmed description. -/
def hasItemWithDescription (inv : Invoice) : Bool :=
  inv.items.any (fun item => jsTrim item.description != "")

/-- `!invoice.customer?.name?.trim()` (`App.js` 190): the customer is
absent, or has no name field, or its name trims to the empty string. -/
def customerNameBlank (inv : Invoice) : Bool :=
  match inv.customer with
  | none => true
  | some c =>
    match c.name with
    | none => true
    | some n => jsTrim n == ""

/-- The validation gate of `createInvoice` (`App.js` 184-193), checked in
source order: the line-item check first, then the credit-customer check. -/
def validateForSubmission (inv : Invoice) : Option ValidationError :=
  if ¬ hasItemWithDescription inv then
    some ValidationError.missingLineItemDescription
  else if inv.payment_type = PaymentType.Credit ∧ customerNameBlank inv then
    some ValidationError.missingCustomerName
  else
    none

/-- Outcome of the `POST /invoices` round trip to the persistence
collaborator: it either rejects (network or service failure) or resolves
with the persisted invoice — a non-null object, so the `if (response.data)`
test of `App.js` 197 is taken exactly on success. -/
inductive CollabResult where
  | ok
  | err
deriving DecidableEq, Repr

/-- What `createInvoice` reports to the user. -/
inductive SubmitOutcome where
  | validationFailed (e : ValidationError)
  | createFailed
  | created
deriving DecidableEq, Repr

/-- The fresh empty template installed by the form reset
(`App.js` 201-213); field for field the literal of the source. -/
def resetInvoice : Invoice :=
  { payment_type := PaymentType.Cash
    customer := none
    items := [{ description := "", quantity := 1, rate := 0, amount := 0 }]
    subtotal := 0
    discount := 0
    gst_rate := 0
    gst_amount := 0
    total := 0
    notes := ""
    terms := ""
    due_date := none }

/-- `createInvoice` (`App.js` 180-226): validate, then post to the
collaborator; on collaborator success reset the draft, on any failure
leave it untouched.  Returns the outcome together with the draft the
engine holds afterwards. -/
def createInvoice (inv : Invoice) (collab : CollabResult) : SubmitOutcome × Invoice :=
  match validateForSubmission inv with
  | some e => (SubmitOutcome.validationFailed e, inv)
  | none =>
    match collab with
    | CollabResult.err => (SubmitOutcome.createFailed, inv)
    | CollabResult.ok => (SubmitOutcome.created, resetInvoice)

/-- One UI-originated edit event applied to the draft. -/
inductive Op where
  | itemChange (index : ℤ) (field : ItemField)
  | discountChange (value : String)
  | gstChange (value : String)
  | addItem
  | removeItem (index : ℤ)
  | paymentTypeChange (t : PaymentType)
  | customerChange (field : CustomerField)
deriving DecidableEq, Repr

/-- Apply one edit event.  A `handleItemChange` call that throws (out of
range index) aborts before its `setInvoice`, leaving the draft unchanged,
hence the `getD inv`. -/
def step (inv : Invoice) : Op → Invoice
  | Op.itemChange index field => (handleItemChange inv index field).getD inv
  | Op.discountChange value => handleDiscountChange inv value
  | Op.gstChange value => handleGSTChange inv value
  | Op.addItem => addItem inv
  | Op.removeItem index => removeItem inv index
  | Op.paymentTypeChange t => handlePaymentTypeChange inv t
  | Op.customerChange field => handleCustomerChange inv field

/-- Run a sequence of edit events from a starting draft. -/
def run (inv : Invoice) (ops : List Op) : Invoice :=
  ops.foldl step inv

/-- Invariants 1-3 of the spec: `subtotal` is the sum of the item amounts,
`gst_amount` is computed on the discounted base with no clamping, and
`total` is the discounted base plus the tax. -/
def totalsInv (inv : Invoice) : Prop :=
  inv.subtotal = sumAmounts inv.items ∧
  inv.gst_amount = (inv.subtotal - inv.discount) * inv.gst_rate / 100 ∧
  inv.total = (inv.subtotal - inv.discount) + inv.gst_amount

instance (inv : Invoice) : Decidable (totalsInv inv) := by
  unfold totalsInv; infer_instance

/-- Invariant 5 of the spec: the customer record is present only when the
payment type is Credit. -/
def customerOnlyWhenCredit (inv : Invoice) : Prop :=
  inv.customer ≠ none → inv.payment_type = PaymentType.Credit

instance (inv : Invoice) : Decidable (customerOnlyWhenCredit inv) := by
  unfold customerOnlyWhenCredit; infer_instance

/-! ### Basic lemmas -/

theorem jsOr0_eq (x : ℚ) : jsOr0 x = x := by
  unfold jsOr0
  split <;> simp_all

theorem sumAmounts_append_blank (l : List LineItem) :
    sumAmounts (l ++ [blankItem]) = sumAmounts l := by
  simp [sumAmounts, List.foldl_append, blankItem]

theorem calculateTotals_subtotal (items : List LineItem) (d g : ℚ) :
    (calculateTotals items d g).subtotal = sumAmounts items := by
  simp [calculateTotals]

theorem calculateTotals_gstAmount (items : List LineItem) (d g : ℚ) :
    (calculateTotals items d g).gstAmount = (sumAmounts items - d) * g / 100 := by
  simp [calculateTotals, jsOr0_eq]

theorem calculateTotals_total (items : List LineItem) (d g : ℚ) :
    (calculateTotals items d g).total =
      (sumAmounts items - d) + (calculateTotals items d g).gstAmount := by
  simp [calculateTotals, jsOr0_eq]

/-! ### Preservation of the totals invariants (spec invariants 1-3) -/

theorem totalsInv_handleItemChange (inv : Invoice) (index : ℤ) (field : ItemField)
    (h : totalsInv inv) : totalsInv ((handleItemChange inv index field).getD inv) := by
  unfold handleItemChange
  split
  · refine ⟨?_, ?_, ?_⟩ <;>
      simp [calculateTotals_subtotal, calculateTotals_gstAmount, calculateTotals_total]
  · simpa using h

theorem totalsInv_handleDiscountChange (inv : Invoice) (value : String) :
    totalsInv (handleDiscountChange inv value) := by
  unfold handleDiscountChange
  refine ⟨?_, ?_, ?_⟩ <;>
    simp [calculateTotals_subtotal, calculateTotals_gstAmount, calculateTotals_total]

theorem totalsInv_handleGSTChange (inv : Invoice) (value : String)
    (h : totalsInv inv) : totalsInv (handleGSTChange inv value) := by
  obtain ⟨h1, _, _⟩ := h
  unfold handleGSTChange
  refine ⟨?_, ?_, ?_⟩ <;>
    simp [calculateTotals_subtotal, calculateTotals_gstAmount, calculateTotals_total, h1]

theorem totalsInv_addItem (inv : Invoice) (h : totalsInv inv) :
    totalsInv (addItem inv) := by
  obtain ⟨h1, h2, h3⟩ := h
  unfold addItem
  exact ⟨by simpa [sumAmounts_append_blank] using h1, h2, h3⟩

theorem totalsInv_removeItem (inv : Invoice) (index : ℤ) (h : totalsInv inv) :
    totalsInv (removeItem inv index) := by
  unfold removeItem
  split
  · refine ⟨?_, ?_, ?_⟩ <;>
      simp [calculateTotals_subtotal, calculateTotals_gstAmount, calculateTotals_total]
  · exact h

theorem totalsInv_handlePaymentTypeChange (inv : Invoice) (t : PaymentType)
    (h : totalsInv inv) : totalsInv (handlePaymentTypeChange inv t) := by
  obtain ⟨h1, h2, h3⟩ := h
  exact ⟨h1, h2, h3⟩

theorem totalsInv_handleCustomerChange (inv : Invoice) (field : CustomerField)
    (h : totalsInv inv) : totalsInv (handleCustomerChange inv field) := by
  obtain ⟨h1, h2, h3⟩ := h
  exact ⟨h1, h2, h3⟩

theorem totalsInv_step (inv : Invoice) (op : Op) (h : totalsInv inv) :
    totalsInv (step inv op) := by
  cases op with
  | itemChange index field => exact totalsInv_handleItemChange inv index field h
  | discountChange value => exact totalsInv_handleDiscountChange inv value
  | gstChange value => exact totalsInv_handleGSTChange inv value h
  | addItem => exact totalsInv_addItem inv h
  | removeItem index => exact totalsInv_removeItem inv index h
  | paymentTypeChange t => exact totalsInv_handlePaymentTypeChange inv t h
  | customerChange field => exact totalsInv_handleCustomerChange inv field h

theorem totalsInv_run (ops : List Op) (inv : Invoice) (h : totalsInv inv) :
    totalsInv (run inv ops) := by
  induction ops generalizing inv with
  | nil => exact h
  | cons op ops ih => exact ih (step inv op) (totalsInv_step inv op h)

theorem totalsInv_initialInvoice : totalsInv initialInvoice := by
  refine ⟨?_, ?_, ?_⟩ <;> simp [initialInvoice, blankItem, sumAmounts]

/-! ### Lemmas about `filterIdx` (the filter of `removeItem`) -/

theorem filterIdx_keep_all {α : Type} (p : ℕ → Bool) (l : List α) (k : ℕ)
    (h : ∀ i, i < l.length → p (k + i) = true) : filterIdx p l k = l := by
  induction l generalizing k with
  | nil => rfl
  | cons a as ih =>
    have hk : p k = true := by simpa using h 0 (by simp)
    simp only [filterIdx, hk, if_true]
    refine congrArg (a :: ·) (ih (k + 1) ?_)
    intro i hi
    have := h (i + 1) (by simpa using Nat.succ_lt_succ hi)
    simpa [Nat.add_assoc, Nat.add_comm 1 i] using this

theorem filterIdx_keep_all_of_out_of_range {α : Type} (l : List α) (idx : ℤ)
    (h : idx < 0 ∨ (l.length : ℤ) ≤ idx) :
    filterIdx (fun i => (i : ℤ) != idx) l 0 = l := by
  refine filterIdx_keep_all _ _ _ ?_
  intro i hi
  simp only [bne_iff_ne, ne_eq, decide_eq_true_eq]
  rcases h with h | h <;> omega

theorem filterIdx_eraseIdx {α : Type} (l : List α) (k n : ℕ) (idx : ℤ)
    (hidx : idx = (k : ℤ) + (n : ℤ)) (hn : n < l.length) :
    filterIdx (fun i => (i : ℤ) != idx) l k = l.eraseIdx n := by
  induction l generalizing k n with
  | nil => simp at hn
  | cons a as ih =>
    cases n with
    | zero =>
      have hk : ((k : ℤ) != idx) = false := by
        simp only [bne_eq_false_iff_eq]
        omega
      simp only [filterIdx, hk, Bool.false_eq_true, if_false, List.eraseIdx]
      refine filterIdx_keep_all _ _ _ ?_
      intro i hi
      simp only [bne_iff_ne, ne_eq, decide_eq_true_eq]
      omega
    | succ m =>
      have hk : ((k : ℤ) != idx) = true := by
        simp only [bne_iff_ne, ne_eq, decide_eq_true_eq]
        omega
      simp only [filterIdx, hk, if_true, List.eraseIdx]
      refine congrArg (a :: ·) (ih (k + 1) m ?_ ?_)
      · push_cast
        omega
      · simpa using Nat.lt_of_succ_lt_succ hn

/-! ### Evaluation of the lenient parser on the strings of the claims -/

theorem jsToNumOr0_abc : jsToNumOr0 "abc" = 0 := by
  simp [jsToNumOr0, jsParseFloat,
    (by decide : jsParseFloatRaw "abc" = (none : Option ParsedNum))]

theorem jsToNumOr0_empty : jsToNumOr0 "" = 0 := by
  simp [jsToNumOr0, jsParseFloat,
    (by decide : jsParseFloatRaw "" = (none : Option ParsedNum))]

theorem jsToNumOr0_zero : jsToNumOr0 "0" = 0 := by
  simp [jsToNumOr0, jsParseFloat,
    (by decide :
      jsParseFloatRaw "0" = some { neg := false, intVal := 0, fracVal := 0, fracLen := 0 }),
    ratOfParsed, jsOr0]

theorem jsToNumOr0_neg_five : jsToNumOr0 "-5" = -5 := by
  simp [jsToNumOr0, jsParseFloat,
    (by decide :
      jsParseFloatRaw "-5" = some { neg := true, intVal := 5, fracVal := 0, fracLen := 0 }),
    ratOfParsed, jsOr0]

theorem jsToNumOr0_seven : jsToNumOr0 "7" = 7 := by
  simp [jsToNumOr0, jsParseFloat,
    (by decide :
      jsParseFloatRaw "7" = some { neg := false, intVal := 7, fracVal := 0, fracLen := 0 }),
    ratOfParsed, jsOr0]

/-! ### Claim theorems -/

/-- C1: for every sequence of edit events applied to the initial draft
(in particular every sequence of `setItemField`, `addItem`, `removeItem`,
`setDiscount` and `setGstRate` calls), the resulting draft satisfies
`subtotal = Σ items[i].amount`,
`gst_amount = (subtotal - discount) * gst_rate / 100` (computed on the
discounted base with no clamping), and
`total = (subtotal - discount) + gst_amount`.  Since every prefix of a
sequence is itself a sequence, the invariants hold after every call. -/
theorem claim1_totals_invariants (ops : List Op) :
    totalsInv (run initialInvoice ops) :=
  totalsInv_run ops initialInvoice totalsInv_initialInvoice

/-- C6: `setPaymentType(Cash)` clears the customer unconditionally and
changes nothing but `payment_type` and `customer`; `setPaymentType(Credit)`
changes only `payment_type`, leaving the customer record (and every other
field) exactly as it was. -/
theorem claim6_setPaymentType (inv : Invoice) :
    handlePaymentTypeChange inv PaymentType.Cash =
      { inv with payment_type := PaymentType.Cash, customer := none } ∧
    handlePaymentTypeChange inv PaymentType.Credit =
      { inv with payment_type := PaymentType.Credit } := by
  constructor <;> simp [handlePaymentTypeChange]

/-- C7: the lenient-parse law.  `setDiscount("abc")` produces exactly the
draft `setDiscount("0")` produces, and `setGstRate("")` produces exactly
the draft `setGstRate("0")` produces; both handlers are total functions of
the raw string, so no parse error is ever propagated. -/
theorem claim7_lenient_parse (inv : Invoice) :
    handleDiscountChange inv "abc" = handleDiscountChange inv "0" ∧
    handleGSTChange inv "" = handleGSTChange inv "0" := by
  constructor <;>
    simp [handleDiscountChange, handleGSTChange, jsToNumOr0_abc, jsToNumOr0_empty,
      jsToNumOr0_zero]

/-- C4: `removeItem` never shrinks `items` below one row.  On a draft with
exactly one item it is a complete no-op (the whole draft, totals included,
is returned unchanged); on a draft with more than one item and a valid
index it removes `items[index]` and recomputes the totals with
`calculateTotals`. -/
theorem claim4_removeItem (inv : Invoice) (index : ℤ) :
    (inv.items.length = 1 → removeItem inv index = inv) ∧
    (1 < inv.items.length → 0 ≤ index → index < (inv.items.length : ℤ) →
      removeItem inv index =
        { inv with
            items := inv.items.eraseIdx index.toNat
            subtotal :=
              (calculateTotals (inv.items.eraseIdx index.toNat) inv.discount
                inv.gst_rate).subtotal
            gst_amount :=
              (calculateTotals (inv.items.eraseIdx index.toNat) inv.discount
                inv.gst_rate).gstAmount
            total :=
              (calculateTotals (inv.items.eraseIdx index.toNat) inv.discount
                inv.gst_rate).total }) := by
  constructor
  · intro h1
    unfold removeItem
    rw [if_neg (by omega)]
  · intro hlen h0 hlt
    have he : filterIdx (fun i => (i : ℤ) != index) inv.items 0 =
        inv.items.eraseIdx index.toNat :=
      filterIdx_eraseIdx inv.items 0 index.toNat index (by omega) (by omega)
    unfold removeItem
    rw [if_pos hlen, he]

/-- A second line item used by concrete witnesses. -/
def item6 : LineItem := { description := "X", quantity := 2, rate := 3, amount := 6 }

/-- A two-row draft satisfying the totals invariants, used by concrete
witnesses. -/
def twoItemDraft : Invoice :=
  { initialInvoice with items := [item6, blankItem], subtotal := 6, total := 6 }

/-- Witness for C4: on the one-row initial draft `removeItem` is a no-op,
and on a concrete two-row draft `removeItem 0` drops the first row and
recomputes the totals to zero. -/
theorem claim4_witness :
    removeItem initialInvoice 5 = initialInvoice ∧
    removeItem twoItemDraft 0 =
      { twoItemDraft with items := [blankItem], subtotal := 0, gst_amount := 0, total := 0 } := by
  constructor
  · exact (claim4_removeItem initialInvoice 5).1 (by decide)
  · have h := (claim4_removeItem twoItemDraft 0).2 (by decide) (by decide) (by decide)
    rw [h]
    ext <;>
      simp [twoItemDraft, initialInvoice, item6, blankItem, calculateTotals, sumAmounts, jsOr0]

/-- C8 counterexample: the discount field is not parsed as a non-negative
number — `setDiscount("-5")` stores the negative value `-5`. -/
theorem claim8_counterexample : (handleDiscountChange initialInvoice "-5").discount < 0 := by
  simp [handleDiscountChange, jsToNumOr0_neg_five]

/-- C8 amended: for every input string, the discount stored by
`setDiscount` equals the leniently parsed value of the input (`0` when
parsing fails, and possibly negative when the input is a negative
numeral); on every draft satisfying the subtotal invariant the call
leaves `subtotal` unchanged. -/
theorem claim8_discount_stores_parse (inv : Invoice) (value : String)
    (h : inv.subtotal = sumAmounts inv.items) :
    (handleDiscountChange inv value).discount = jsToNumOr0 value ∧
    (handleDiscountChange inv value).subtotal = inv.subtotal := by
  constructor
  · simp [handleDiscountChange]
  · simp [handleDiscountChange, calculateTotals_subtotal, h]

/-- Witness for C8 (amended): `setDiscount("7")` on the initial draft
stores discount `7` and keeps the subtotal. -/
theorem claim8_witness :
    (handleDiscountChange initialInvoice "7").discount = 7 ∧
    (handleDiscountChange initialInvoice "7").subtotal = initialInvoice.subtotal := by
  have h := claim8_discount_stores_parse initialInvoice "7"
    (by simp [initialInvoice, sumAmounts, blankItem])
  exact ⟨h.1.trans jsToNumOr0_seven, h.2⟩

/-- C9 counterexample: `setItemField` with the out-of-range index `1` on
the one-row initial draft does not complete — `newItems[1]` is
`undefined`, so the assignment `newItems[1][field] = value` throws a
`TypeError` (modelled by `none`). -/
theorem claim9_counterexample :
    handleItemChange initialInvoice 1 (ItemField.description "x") = none := by
  decide

/-- C9 amended: for every draft and every index outside the valid
positions of `items` (negative or at least `items.length`),
`setItemField` throws a `TypeError`-class error condition instead of
completing. -/
theorem claim9_out_of_range (inv : Invoice) (index : ℤ) (field : ItemField)
    (h : index < 0 ∨ (inv.items.length : ℤ) ≤ index) :
    handleItemChange inv index field = none := by
  have h' : ¬(0 ≤ index ∧ index < (inv.items.length : ℤ)) := by
    rcases h with h | h <;> omega
  unfold handleItemChange
  rw [if_neg h']

/-- Witness for C9 (amended): a negative index also throws. -/
theorem claim9_witness :
    handleItemChange initialInvoice (-1) (ItemField.quantity 2) = none :=
  claim9_out_of_range initialInvoice (-1) (ItemField.quantity 2) (Or.inl (by norm_num))

/-- C10: on every draft satisfying the totals invariants (as every
engine-reachable draft does) with more than one item, `removeItem` with an
out-of-range index (negative or at least `items.length`) raises no error
and returns the draft unchanged: the filter removes nothing and the
recomputed totals coincide with the stored ones. -/
theorem claim10_removeItem_out_of_range (inv : Invoice) (index : ℤ)
    (hlen : 1 < inv.items.length)
    (hidx : index < 0 ∨ (inv.items.length : ℤ) ≤ index)
    (hinv : totalsInv inv) :
    removeItem inv index = inv := by
  obtain ⟨h1, h2, h3⟩ := hinv
  have he := filterIdx_keep_all_of_out_of_range inv.items index hidx
  have hsub : (calculateTotals inv.items inv.discount inv.gst_rate).subtotal = inv.subtotal := by
    rw [calculateTotals_subtotal]
    exact h1.symm
  have hgst :
      (calculateTotals inv.items inv.discount inv.gst_rate).gstAmount = inv.gst_amount := by
    rw [calculateTotals_gstAmount, ← h1, ← h2]
  have htot : (calculateTotals inv.items inv.discount inv.gst_rate).total = inv.total := by
    rw [calculateTotals_total, calculateTotals_gstAmount, ← h1, ← h2, ← h3]
  unfold removeItem
  rw [if_pos hlen, he]
  dsimp only
  rw [hsub, hgst, htot]

/-- Witness for C10: a negative index on a concrete two-row draft leaves
it untouched. -/
theorem claim10_witness : removeItem twoItemDraft (-3) = twoItemDraft := by
  refine claim10_removeItem_out_of_range twoItemDraft (-3) (by decide) (Or.inl (by decide)) ?_
  refine ⟨?_, ?_, ?_⟩ <;>
    norm_num [twoItemDraft, initialInvoice, sumAmounts, item6, blankItem]

/-- A one-row draft with a non-blank description, used by concrete
witnesses; it passes validation. -/
def goodDraft : Invoice := { initialInvoice with items := [item6] }

/-- C2: `submit` first validates; on validation failure it returns the
validation condition with the draft preserved, independently of the
collaborator.  When validation passes, a collaborator failure leaves the
draft unchanged, and a collaborator success resets the draft to the fresh
empty template: payment type Cash, no customer, exactly one blank item,
and all monetary fields zero. -/
theorem claim2_submit (inv : Invoice) (e : ValidationError) :
    (validateForSubmission inv = some e →
      ∀ r : CollabResult, createInvoice inv r = (SubmitOutcome.validationFailed e, inv)) ∧
    (validateForSubmission inv = none →
      createInvoice inv CollabResult.err = (SubmitOutcome.createFailed, inv) ∧
      createInvoice inv CollabResult.ok = (SubmitOutcome.created, resetInvoice)) ∧
    resetInvoice.payment_type = PaymentType.Cash ∧
    resetInvoice.customer = none ∧
    resetInvoice.items = [{ description := "", quantity := 1, rate := 0, amount := 0 }] ∧
    resetInvoice.discount = 0 ∧
    resetInvoice.gst_rate = 0 ∧
    resetInvoice.gst_amount = 0 ∧
    resetInvoice.subtotal = 0 ∧
    resetInvoice.total = 0 := by
  refine ⟨?_, ?_, rfl, rfl, rfl, rfl, rfl, rfl, rfl, rfl⟩
  · intro h r
    simp [createInvoice, h]
  · intro h
    constructor <;> simp [createInvoice, h]

/-- Witness for C2: the blank initial draft fails validation and is kept;
a valid draft is kept on collaborator failure and reset on success. -/
theorem claim2_witness :
    createInvoice initialInvoice CollabResult.ok =
      (SubmitOutcome.validationFailed ValidationError.missingLineItemDescription,
        initialInvoice) ∧
    createInvoice goodDraft CollabResult.err = (SubmitOutcome.createFailed, goodDraft) ∧
    createInvoice goodDraft CollabResult.ok = (SubmitOutcome.created, resetInvoice) := by
  have h1 :=
    (claim2_submit initialInvoice ValidationError.missingLineItemDescription).1
      (by decide) CollabResult.ok
  have h2 :=
    (claim2_submit goodDraft ValidationError.missingLineItemDescription).2.1 (by decide)
  exact ⟨h1, h2.1, h2.2⟩

/-- The condition of the credit-customer check, in the words of the spec:
the customer is absent, or its name field is missing, or its name trims to
the empty string. -/
def customerNameMissing (inv : Invoice) : Prop :=
  inv.customer = none ∨
    ∃ c, inv.customer = some c ∧
      (c.name = none ∨ ∃ n, c.name = some n ∧ jsTrim n = "")

theorem customerNameBlank_iff (inv : Invoice) :
    customerNameBlank inv = true ↔ customerNameMissing inv := by
  unfold customerNameBlank customerNameMissing
  cases hc : inv.customer with
  | none => simp
  | some c =>
    cases hn : c.name with
    | none => simp [hn]
    | some n => simp [hn]

theorem hasItemWithDescription_iff (inv : Invoice) :
    hasItemWithDescription inv = true ↔
      ∃ item ∈ inv.items, jsTrim item.description ≠ "" := by
  simp [hasItemWithDescription]

theorem hasItemWithDescription_eq_false_iff (inv : Invoice) :
    hasItemWithDescription inv = false ↔
      ∀ item ∈ inv.items, jsTrim item.description = "" := by
  simp [hasItemWithDescription]

theorem validate_eq_missingDescription_iff (inv : Invoice) :
    validateForSubmission inv = some ValidationError.missingLineItemDescription ↔
      hasItemWithDescription inv = false := by
  unfold validateForSubmission
  split_ifs with h1 h2 <;> simp_all

theorem validate_eq_missingCustomer_iff (inv : Invoice) :
    validateForSubmission inv = some ValidationError.missingCustomerName ↔
      (hasItemWithDescription inv = true ∧ inv.payment_type = PaymentType.Credit ∧
        customerNameBlank inv = true) := by
  unfold validateForSubmission
  split_ifs with h1 h2 <;> simp_all

theorem validate_eq_none_iff (inv : Invoice) :
    validateForSubmission inv = none ↔
      (hasItemWithDescription inv = true ∧
        ¬(inv.payment_type = PaymentType.Credit ∧ customerNameBlank inv = true)) := by
  unfold validateForSubmission
  split_ifs with h1 h2 <;> simp_all

/-- C3 counterexample: on the draft with payment type Credit, no customer
and only a blank item, validation reports `MissingLineItemDescription`,
not `MissingCustomerName` — the line-item check takes precedence, so the
customer clause of the claim does not hold as stated for this draft. -/
theorem claim3_counterexample :
    ({ initialInvoice with payment_type := PaymentType.Credit } : Invoice).payment_type =
        PaymentType.Credit ∧
    ({ initialInvoice with payment_type := PaymentType.Credit } : Invoice).customer = none ∧
    validateForSubmission { initialInvoice with payment_type := PaymentType.Credit } ≠
        some ValidationError.missingCustomerName ∧
    validateForSubmission { initialInvoice with payment_type := PaymentType.Credit } =
        some ValidationError.missingLineItemDescription := by
  refine ⟨rfl, rfl, ?_, ?_⟩ <;> decide

/-- C3 amended: `validateForSubmission` fails with
`MissingLineItemDescription` exactly when no item has a non-blank trimmed
description; it fails with `MissingCustomerName` exactly when some item
has a non-blank description (the line-item check takes precedence), the
payment type is Credit, and the customer is absent or its trimmed name is
empty; it succeeds in every remaining case — no other field is
validated. -/
theorem claim3_validate (inv : Invoice) :
    (validateForSubmission inv = some ValidationError.missingLineItemDescription ↔
      ∀ item ∈ inv.items, jsTrim item.description = "") ∧
    (validateForSubmission inv = some ValidationError.missingCustomerName ↔
      ((∃ item ∈ inv.items, jsTrim item.description ≠ "") ∧
        inv.payment_type = PaymentType.Credit ∧ customerNameMissing inv)) ∧
    (validateForSubmission inv = none ↔
      ((∃ item ∈ inv.items, jsTrim item.description ≠ "") ∧
        ¬(inv.payment_type = PaymentType.Credit ∧ customerNameMissing inv))) := by
  refine ⟨?_, ?_, ?_⟩
  · rw [validate_eq_missingDescription_iff, hasItemWithDescription_eq_false_iff]
  · rw [validate_eq_missingCustomer_iff, hasItemWithDescription_iff, customerNameBlank_iff]
  · rw [validate_eq_none_iff, hasItemWithDescription_iff, customerNameBlank_iff]

/-- C5 counterexample: invariant 5 does not survive `setCustomerField`
called while the payment type is Cash — one reachable mutator call on the
initial draft creates a customer record under Cash. -/
theorem claim5_counterexample :
    (run initialInvoice [Op.customerChange (CustomerField.name "A")]).payment_type =
        PaymentType.Cash ∧
    (run initialInvoice [Op.customerChange (CustomerField.name "A")]).customer ≠ none ∧
    ¬ customerOnlyWhenCredit (run initialInvoice [Op.customerChange (CustomerField.name "A")]) := by
  refine ⟨rfl, ?_, ?_⟩ <;> decide

/-- C5 amended: the invariant "customer is present only when
`payment_type = Credit`" is preserved by every mutator call except
`setCustomerField` invoked while the payment type is not Credit: whenever
the draft satisfies the invariant and any `setCustomerField` call happens
under Credit, the draft after the call satisfies it again. -/
theorem claim5_customer_invariant (inv : Invoice) (op : Op)
    (h : customerOnlyWhenCredit inv)
    (hop : ∀ f, op = Op.customerChange f → inv.payment_type = PaymentType.Credit) :
    customerOnlyWhenCredit (step inv op) := by
  cases op with
  | itemChange index field =>
    simp only [step, handleItemChange]
    split
    · exact fun _ => h (by assumption)
    · exact h
  | discountChange value => exact fun hc => h hc
  | gstChange value => exact fun hc => h hc
  | addItem => exact fun hc => h hc
  | removeItem index =>
    simp only [step]
    unfold removeItem
    split
    · exact fun hc => h (by assumption)
    · exact h
  | paymentTypeChange t =>
    cases t with
    | Cash => intro hc; exact absurd rfl hc
    | Credit => intro _; rfl
  | customerChange field =>
    intro _
    exact hop field rfl

/-- Witness for C5 (amended): switching to Credit preserves the
invariant on the initial draft. -/
theorem claim5_witness :
    customerOnlyWhenCredit (step initialInvoice (Op.paymentTypeChange PaymentType.Credit)) :=
  claim5_customer_invariant initialInvoice (Op.paymentTypeChange PaymentType.Credit)
    (by decide) (fun f hf => nomatch hf)

end TSTINVO
